import Mathlib

/-!
Verification of the alx_travel_app booking/review core against its
natural-language specification.

The Django models, serializers, viewsets, permissions and admin actions in
`listings_models.py`, `listings_serializers.py`, `listings_views.py`,
`listings_permissions.py` and `listings_admin.py` are shallowly embedded
below.  Users and listings are identified by natural numbers; calendar
dates are day numbers (`Int`); decimal amounts are rationals.
-/

namespace AlxTravel

/-- Status enum `BookingStatus` (listings_models.py): pending / confirmed / cancelled /
completed. -/
inductive BookingStatus where
  | pending
  | confirmed
  | cancelled
  | completed
deriving Repr, DecidableEq

/-- Model `Listing` (listings_models.py): the fields the core logic reads.
`maxGuests` carries the model invariant `MinValueValidator(1)` externally;
`isActive` is the soft-delete flag. -/
structure Listing where
  id : Nat
  host : Nat
  maxGuests : Nat
  pricePerNight : Rat
  isActive : Bool
deriving Repr, DecidableEq

/-- Model `Review` (listings_models.py): rating is an integer (validators 1..5),
`isActive` is the soft-delete flag. -/
structure Review where
  id : Nat
  listing : Nat
  reviewer : Nat
  rating : Int
  comment : String
  isActive : Bool
deriving Repr, DecidableEq

/-- Model `Booking` (listings_models.py). -/
structure Booking where
  id : Nat
  listing : Nat
  guest : Nat
  checkInDate : Int
  checkOutDate : Int
  numGuests : Int
  totalPrice : Rat
  status : BookingStatus
deriving Repr, DecidableEq

/-- The entity store: the three tables the views query. -/
structure Store where
  listings : List Listing
  bookings : List Booking
  reviews : List Review
deriving Repr, DecidableEq

/-- The writable payload of `BookingSerializer` (listings_serializers.py):
`fields` minus `read_only_fields` leaves listing, the two dates, num_guests,
total_price, status and special_requests writable; `status = none` models a
request that does not supply the optional status field (the model default
`BookingStatus.PENDING` then applies). -/
structure BookingRequest where
  listing : Nat
  checkInDate : Int
  checkOutDate : Int
  numGuests : Int
  totalPrice : Rat
  status : Option BookingStatus
deriving Repr, DecidableEq

/-- Semantic error kinds produced by `BookingSerializer`.  The names follow
the specification vocabulary; each constructor corresponds to one
`ValidationError` raise site in listings_serializers.py. -/
inductive ValidationError where
  /-- related-field resolution failure for `listing` (no such primary key). -/
  | listingNotFound
  /-- From `validate_num_guests`: "Number of guests must be greater than 0." -/
  | guestCountNotPositive
  /-- From `validate_total_price`: "Total price must be greater than 0." -/
  | invalidPrice
  /-- From `validate`: "Check-out date must be after check-in date." -/
  | invalidDateRange
  /-- From `validate`: "Number of guests exceeds maximum capacity." -/
  | guestCapacityExceeded
deriving Repr, DecidableEq

/-- Result of running the serializer's validation. -/
inductive ValidationResult where
  | accepted
  | rejected (errors : List ValidationError)
deriving Repr, DecidableEq

/-- Resolve the `listing` primary-key field against the store
(`Listing.objects.all()` is the related field's default queryset, so
inactive listings resolve too). -/
def findListing (store : Store) (listingId : Nat) : Option Listing :=
  store.listings.find? (fun l => l.id == listingId)

/-- The field-level validation stage (`to_internal_value`): every field is
validated and the errors of all fields are collected together — listing
resolution, `validate_num_guests` (`value <= 0`), `validate_total_price`
(`value <= 0`). -/
def fieldErrors (store : Store) (r : BookingRequest) : List ValidationError :=
  (if (findListing store r.listing).isNone then [ValidationError.listingNotFound] else [])
    ++ (if r.numGuests ≤ 0 then [ValidationError.guestCountNotPositive] else [])
    ++ (if r.totalPrice ≤ 0 then [ValidationError.invalidPrice] else [])

/-- The object-level `BookingSerializer.validate` (listings_serializers.py
lines 98–117): it raises at the FIRST violation — the date comparison, then
the capacity comparison — and reads nothing but the request and the resolved
listing's `max_guests`. -/
def objectValidate (listing : Listing) (r : BookingRequest) : List ValidationError :=
  if r.checkInDate ≥ r.checkOutDate then [ValidationError.invalidDateRange]
  else if r.numGuests > (listing.maxGuests : Int) then [ValidationError.guestCapacityExceeded]
  else []

/-- The full `is_valid` pipeline of the serializer: field-level errors are
collected first; only when there are none does the object-level `validate`
run. -/
def runValidation (store : Store) (r : BookingRequest) : ValidationResult :=
  let fe := fieldErrors store r
  if fe.isEmpty then
    match findListing store r.listing with
    | some l =>
        match objectValidate l r with
        | [] => ValidationResult.accepted
        | es => ValidationResult.rejected es
    | none => ValidationResult.rejected [ValidationError.listingNotFound]
  else ValidationResult.rejected fe

/-- Creation, `BookingViewSet.perform_create` (listings_views.py lines 112–114):
on successful validation the booking is saved with `guest = request.user`;
the status column takes the supplied value when the writable `status` field
was present, else the model default `pending`. -/
def createBooking (store : Store) (actor : Nat) (newId : Nat) (r : BookingRequest) :
    Except (List ValidationError) Booking :=
  match runValidation store r with
  | ValidationResult.rejected es => Except.error es
  | ValidationResult.accepted =>
      Except.ok
        { id := newId
          listing := r.listing
          guest := actor
          checkInDate := r.checkInDate
          checkOutDate := r.checkOutDate
          numGuests := r.numGuests
          totalPrice := r.totalPrice
          status := r.status.getD BookingStatus.pending }

/-- The specification's availability predicate (§4.1), stated from the
spec's words for comparison with the code: a candidate half-open range
conflicts with booking `b` iff `b` is on the same listing, is Pending or
Confirmed, and the intervals overlap. -/
def specConflicts (b : Booking) (listingId : Nat) (checkIn checkOut : Int) : Bool :=
  b.listing == listingId
    && (b.status == BookingStatus.pending || b.status == BookingStatus.confirmed)
    && checkIn < b.checkOutDate && b.checkInDate < checkOut

/-- The query `self.reviews.filter(is_active=True)` for a listing. -/
def activeReviews (reviews : List Review) (listingId : Nat) : List Review :=
  reviews.filter (fun rv => rv.listing == listingId && rv.isActive)

/-- The SQL `Avg` aggregate used by `Listing.average_rating`: `NULL`
(`none`) over an empty row set, otherwise the exact mean. -/
def avgAggregate (xs : List Int) : Option Rat :=
  if xs.length = 0 then none
  else some ((xs.map fun i : Int => (i : Rat)).sum / (xs.length : Rat))

/-- Python's `round` to the nearest integer, ties to even. -/
def roundHalfEven (q : Rat) : Int :=
  let f := ⌊q⌋
  let frac := q - (f : Rat)
  if frac < 1 / 2 then f
  else if frac > 1 / 2 then f + 1
  else if f % 2 = 0 then f else f + 1

/-- Python's `round(x, 2)`. -/
def round2 (q : Rat) : Rat := (roundHalfEven (q * 100) : Rat) / 100

/-- Property `Listing.average_rating` (listings_models.py lines 49–55):
`round(avg, 2) if avg else 0.0` — the conditional tests the truthiness of
the unrounded aggregate, so both `None` (no active reviews) and an exact 0
average produce 0.0. -/
def average_rating (reviews : List Review) (listingId : Nat) : Rat :=
  match avgAggregate ((activeReviews reviews listingId).map (fun rv => rv.rating)) with
  | none => 0
  | some a => if a ≠ 0 then round2 a else 0

/-- Property `Listing.review_count` (listings_models.py lines 57–60). -/
def review_count (reviews : List Review) (listingId : Nat) : Nat :=
  (activeReviews reviews listingId).length

/-- Admin action `BookingAdmin.mark_as_confirmed` (listings_admin.py lines 130–137):
`queryset.update(status='confirmed')` — an unconditional bulk overwrite of
the status column of every selected booking, with no check of the current
state. -/
def mark_as_confirmed (bookings : List Booking) (selected : List Nat) : List Booking :=
  bookings.map fun b =>
    if selected.contains b.id then { b with status := BookingStatus.confirmed } else b

/-- Admin action `BookingAdmin.mark_as_cancelled` (listings_admin.py lines 139–146):
`queryset.update(status='cancelled')`. -/
def mark_as_cancelled (bookings : List Booking) (selected : List Nat) : List Booking :=
  bookings.map fun b =>
    if selected.contains b.id then { b with status := BookingStatus.cancelled } else b

/-- HTTP request methods. -/
inductive Method where
  | get
  | head
  | options
  | post
  | put
  | patch
  | delete
deriving Repr, DecidableEq

/-- Membership in `permissions.SAFE_METHODS`. -/
def Method.isSafe : Method → Bool
  | Method.get => true
  | Method.head => true
  | Method.options => true
  | _ => false

/-- Permission `IsOwnerOrReadOnly.has_object_permission` applied to a `Review` object
(listings_permissions.py lines 9–24): safe methods always pass; a review
has no `host` attribute, so the write branch compares `obj.reviewer` with
the requesting user. -/
def isOwnerOrReadOnly_review (method : Method) (user : Nat) (rv : Review) : Bool :=
  if method.isSafe then true else rv.reviewer == user

/-- The update action of `ReviewViewSet` (listings_views.py lines 76–90):
`ModelViewSet` exposes PUT/PATCH; `IsAuthenticatedOrReadOnly` requires an
authenticated user for writes; `IsOwnerOrReadOnly` then checks the object;
`ReviewSerializer` validates the rating (1..5) and writes the new rating
and comment (both writable fields).  `none` models a rejected request. -/
def updateReview (authenticated : Bool) (user : Nat) (method : Method)
    (rv : Review) (newRating : Int) (newComment : String) : Option Review :=
  if !(method == Method.put || method == Method.patch) then none
  else if !authenticated then none
  else if !(isOwnerOrReadOnly_review method user rv) then none
  else if newRating < 1 || newRating > 5 then none
  else some { rv with rating := newRating, comment := newComment }

/-! ## Concrete fixtures (the §8 scenario of the specification) -/

/-- A capacity-4 active listing owned by host 3. -/
def listingL : Listing := ⟨10, 3, 4, 100, true⟩

/-- A Pending booking of listing 10 for 2025-06-01 → 2025-06-05 (days 1..5). -/
def bookingJune1to5 : Booking := ⟨1, 10, 5, 1, 5, 2, 400, BookingStatus.pending⟩

/-- The store holding the scenario listing and its Pending booking. -/
def store1 : Store := ⟨[listingL], [bookingJune1to5], []⟩

/-- Request for 2025-06-03 → 2025-06-06: overlaps `bookingJune1to5` on
06-03/06-04. -/
def reqOverlap : BookingRequest := ⟨10, 3, 6, 1, 300, none⟩

/-- Request for 2025-06-05 → 2025-06-06: adjacent to `bookingJune1to5`
(half-open ranges touch at the boundary only). -/
def reqAdjacent : BookingRequest := ⟨10, 5, 6, 1, 100, none⟩

/-! ## Helper lemmas -/

/-- The serializer validation reads only the request and the listings table:
its result never depends on the stored bookings or reviews. -/
theorem runValidation_store_independent (ls : List Listing) (bs bs' : List Booking)
    (rs rs' : List Review) (r : BookingRequest) :
    runValidation ⟨ls, bs, rs⟩ r = runValidation ⟨ls, bs', rs'⟩ r := rfl

/-! ## Claims -/

/-- C1 (counterexample): the specification's overlap rule flags the
06-03 → 06-06 request as conflicting with the existing Pending
06-01 → 06-05 booking on the same listing, yet the code's validation
accepts the request — no `DateRangeUnavailable` rejection exists anywhere
in the serializer. -/
theorem C1_counterexample :
    specConflicts bookingJune1to5 10 3 6 = true
      ∧ runValidation store1 reqOverlap = ValidationResult.accepted := by
  exact ⟨rfl, rfl⟩

/-- C1 (amended): validation performs no availability check — its outcome
is independent of the stored bookings (and reviews), so a request whose
range overlaps an existing Pending or Confirmed booking passes validation
whenever the date, capacity and field checks pass; an adjacent request is
likewise accepted. -/
theorem C1_amended :
    (∀ (ls : List Listing) (bs bs' : List Booking) (rs rs' : List Review)
        (r : BookingRequest),
        runValidation ⟨ls, bs, rs⟩ r = runValidation ⟨ls, bs', rs'⟩ r)
      ∧ runValidation store1 reqAdjacent = ValidationResult.accepted := by
  exact ⟨fun ls bs bs' rs rs' r => runValidation_store_independent ls bs bs' rs rs' r, rfl⟩

/-- A booking already in the terminal Cancelled state. -/
def bookingCancelled : Booking := ⟨2, 10, 5, 8, 9, 1, 100, BookingStatus.cancelled⟩

/-- C2 (counterexample): the admin bulk action applied to a booking in the
terminal Cancelled state succeeds and overwrites its status to Confirmed —
there is no `InvalidTransition` failure and the status does change. -/
theorem C2_counterexample :
    bookingCancelled.status = BookingStatus.cancelled
      ∧ mark_as_confirmed [bookingCancelled] [2]
          = [{ bookingCancelled with status := BookingStatus.confirmed }] := by
  exact ⟨rfl, rfl⟩

/-- C2 (amended): the admin bulk action is an unconditional overwrite:
every selected booking ends up Confirmed regardless of its current state
(including the terminal states), and non-selected bookings are untouched;
no `InvalidTransition` rejection exists in the code. -/
theorem C2_amended :
    ∀ (bs : List Booking) (sel : List Nat) (b : Booking),
      b ∈ mark_as_confirmed bs sel →
        (b.id ∈ sel → b.status = BookingStatus.confirmed)
          ∧ (b.id ∉ sel → b ∈ bs) := by
  intro bs sel b hb
  rw [mark_as_confirmed, List.mem_map] at hb
  obtain ⟨a, ha, rfl⟩ := hb
  by_cases h : a.id ∈ sel
  · simp [h]
  · simp [h]
    exact ha

/-- C2 (witness): the overwritten Cancelled booking is a member of the bulk
action's output, is selected, and indeed carries status Confirmed. -/
theorem C2_amended_witness :
    ({ bookingCancelled with status := BookingStatus.confirmed } : Booking)
          ∈ mark_as_confirmed [bookingCancelled] [2]
      ∧ (({ bookingCancelled with status := BookingStatus.confirmed } : Booking).id ∈ [2]
          → ({ bookingCancelled with status := BookingStatus.confirmed } : Booking).status
              = BookingStatus.confirmed) := by
  refine ⟨by simp [mark_as_confirmed, bookingCancelled], ?_⟩
  exact (C2_amended [bookingCancelled] [2] _ (by simp [mark_as_confirmed, bookingCancelled])).1

/-- A valid request that explicitly supplies status Confirmed. -/
def reqStatusConfirmed : BookingRequest := ⟨10, 11, 13, 2, 200, some BookingStatus.confirmed⟩

/-- C3 (counterexample): `status` is a writable serializer field, so an
accepted creation request that supplies `confirmed` produces a booking
created directly in the Confirmed state, not Pending. -/
theorem C3_counterexample :
    createBooking store1 7 42 reqStatusConfirmed
        = Except.ok ⟨42, 10, 7, 11, 13, 2, 200, BookingStatus.confirmed⟩
      ∧ BookingStatus.confirmed ≠ BookingStatus.pending := by
  exact ⟨rfl, by decide⟩

/-- C3 (amended): an accepted creation request that does not supply the
optional status field yields a booking in the default Pending state with
`guest` set to the acting user; but a supplied status choice is honored, so
the Pending guarantee holds only for requests that omit the field. -/
theorem C3_amended :
    ∀ (store : Store) (actor newId : Nat) (r : BookingRequest) (b : Booking),
      createBooking store actor newId r = Except.ok b →
        b.status = r.status.getD BookingStatus.pending ∧ b.guest = actor := by
  intro store actor newId r b h
  unfold createBooking at h
  cases hv : runValidation store r with
  | rejected es => rw [hv] at h; exact absurd h (by simp)
  | accepted =>
      rw [hv] at h
      have hb := Except.ok.inj h
      rw [← hb]
      exact ⟨rfl, rfl⟩

/-- C3 (witness): the concrete adjacent request, which omits the status
field, creates a Pending booking for the acting guest 7. -/
theorem C3_amended_witness :
    createBooking store1 7 43 reqAdjacent
        = Except.ok ⟨43, 10, 7, 5, 6, 1, 100, BookingStatus.pending⟩
      ∧ (⟨43, 10, 7, 5, 6, 1, 100, BookingStatus.pending⟩ : Booking).status
          = reqAdjacent.status.getD BookingStatus.pending
      ∧ (⟨43, 10, 7, 5, 6, 1, 100, BookingStatus.pending⟩ : Booking).guest = 7 := by
  refine ⟨rfl, ?_⟩
  exact C3_amended store1 7 43 reqAdjacent ⟨43, 10, 7, 5, 6, 1, 100, BookingStatus.pending⟩ rfl

/-- Listing resolution over a table whose active flags were overwritten:
the overwrite commutes with `find?`, since the lookup compares ids only. -/
theorem find?_isActive_map (ls : List Listing) (flag : Bool) (n : Nat) :
    (ls.map (fun l => { l with isActive := flag })).find? (fun l => l.id == n)
      = Option.map (fun l => { l with isActive := flag })
          (ls.find? (fun l => l.id == n)) := by
  rw [List.find?_map]
  rfl

/-- The validation pipeline reads nothing from the resolved listing except
its capacity: two stores whose lookups agree on presence and `max_guests`
validate every request identically. -/
theorem runValidation_congr (s1 s2 : Store) (r : BookingRequest)
    (h : (findListing s1 r.listing).map (fun l => l.maxGuests)
        = (findListing s2 r.listing).map (fun l => l.maxGuests)) :
    runValidation s1 r = runValidation s2 r := by
  unfold runValidation fieldErrors
  cases h1 : findListing s1 r.listing with
  | none =>
      cases h2 : findListing s2 r.listing with
      | none => rfl
      | some l2 => rw [h1, h2] at h; exact absurd h (by simp)
  | some l1 =>
      cases h2 : findListing s2 r.listing with
      | none => rw [h1, h2] at h; exact absurd h (by simp)
      | some l2 =>
          rw [h1, h2] at h
          have hmg : l1.maxGuests = l2.maxGuests := by simpa using h
          simp [objectValidate, hmg]

/-- When any field-level error was collected, the pipeline rejects with
exactly the collected field errors (the object-level checks never run). -/
theorem runValidation_of_fieldErrors_ne (store : Store) (r : BookingRequest)
    (h : fieldErrors store r ≠ []) :
    runValidation store r = ValidationResult.rejected (fieldErrors store r) := by
  cases hfe : fieldErrors store r with
  | nil => exact absurd hfe h
  | cons e es => simp [runValidation, hfe]

/-- A resolvable listing, a positive guest count and a positive price leave
the field-level stage with no errors. -/
theorem fieldErrors_eq_nil (store : Store) (r : BookingRequest) (l : Listing)
    (hfind : findListing store r.listing = some l)
    (hg : 0 < r.numGuests) (hp : 0 < r.totalPrice) :
    fieldErrors store r = [] := by
  unfold fieldErrors
  rw [hfind]
  simp [not_le.mpr hg, not_le.mpr hp]

/-- Listing 10 deactivated. -/
def listingLInactive : Listing := { listingL with isActive := false }

/-- A store whose only listing is inactive. -/
def storeInactive : Store := ⟨[listingLInactive], [], []⟩

/-- C4 (counterexample): a request naming an existing but inactive listing
passes validation — no `ListingInactive` rejection exists in the code. -/
theorem C4_counterexample :
    listingLInactive.isActive = false
      ∧ runValidation storeInactive reqAdjacent = ValidationResult.accepted := by
  exact ⟨rfl, rfl⟩

/-- C4 (amended): validation never reads the listing's active flag — its
result is unchanged when every listing's flag is overwritten by any value;
a missing listing is reported as a does-not-exist field error, collected
with the remaining field-level errors, and the object-level (date and
capacity) checks then do not run. -/
theorem C4_amended :
    (∀ (ls : List Listing) (bs : List Booking) (rs : List Review)
        (r : BookingRequest) (flag : Bool),
        runValidation ⟨ls.map (fun l => { l with isActive := flag }), bs, rs⟩ r
          = runValidation ⟨ls, bs, rs⟩ r)
      ∧ ∀ (store : Store) (r : BookingRequest),
          findListing store r.listing = none →
            runValidation store r = ValidationResult.rejected (fieldErrors store r)
              ∧ ValidationError.listingNotFound ∈ fieldErrors store r := by
  constructor
  · intro ls bs rs r flag
    apply runValidation_congr
    show ((ls.map (fun l => { l with isActive := flag })).find?
        (fun l => l.id == r.listing)).map (fun l => l.maxGuests)
      = ((ls.find? (fun l => l.id == r.listing)).map (fun l => l.maxGuests))
    rw [find?_isActive_map]
    cases ls.find? (fun l => l.id == r.listing) <;> rfl
  · intro store r h
    have hmem : ValidationError.listingNotFound ∈ fieldErrors store r := by
      simp [fieldErrors, h]
    exact ⟨runValidation_of_fieldErrors_ne store r (List.ne_nil_of_mem hmem), hmem⟩

/-- Request naming listing 99, which is not in `store1`. -/
def reqNoListing : BookingRequest := ⟨99, 1, 2, 1, 50, none⟩

/-- C4 (witness): the missing-listing branch at a concrete request. -/
theorem C4_amended_witness :
    findListing store1 reqNoListing.listing = none
      ∧ (runValidation store1 reqNoListing
            = ValidationResult.rejected (fieldErrors store1 reqNoListing)
          ∧ ValidationError.listingNotFound ∈ fieldErrors store1 reqNoListing) := by
  exact ⟨rfl, C4_amended.2 store1 reqNoListing rfl⟩

/-- Request with the dates reversed (06-05 → 06-03) and 9 guests against a
capacity of 4: it violates both the date rule and the capacity rule. -/
def reqBothViolations : BookingRequest := ⟨10, 5, 3, 9, 100, none⟩

/-- C5 (counterexample): a request violating both the date rule and the
capacity rule is rejected with only `InvalidDateRange` — the capacity
violation is not collected, so validation does short-circuit beyond the
missing-listing case. -/
theorem C5_counterexample :
    (reqBothViolations.numGuests > (listingL.maxGuests : Int)
        ∧ reqBothViolations.checkOutDate ≤ reqBothViolations.checkInDate)
      ∧ runValidation store1 reqBothViolations
          = ValidationResult.rejected [ValidationError.invalidDateRange] := by
  exact ⟨by decide, rfl⟩

/-- C5 (amended): the object-level `validate` raises at the first violated
rule, so with the field-level checks passing and an invalid date range only
`InvalidDateRange` is reported, whatever the guest count; the field-level
violations (unresolvable listing, nonpositive guest count, nonpositive
price) are the ones collected together, and when any of them occurs the
object-level checks do not run. -/
theorem C5_amended :
    (∀ (store : Store) (r : BookingRequest) (l : Listing),
        findListing store r.listing = some l → 0 < r.numGuests → 0 < r.totalPrice →
          r.checkOutDate ≤ r.checkInDate →
            runValidation store r
              = ValidationResult.rejected [ValidationError.invalidDateRange])
      ∧ ∀ (store : Store) (r : BookingRequest),
          fieldErrors store r ≠ [] →
            runValidation store r = ValidationResult.rejected (fieldErrors store r) := by
  constructor
  · intro store r l hfind hg hp hd
    have hfe := fieldErrors_eq_nil store r l hfind hg hp
    simp [runValidation, hfe, hfind, objectValidate, hd]
  · exact fun store r h => runValidation_of_fieldErrors_ne store r h

/-- Request with a zero guest count (field-level violation). -/
def reqZeroGuests : BookingRequest := ⟨10, 1, 2, 0, 50, none⟩

/-- C5 (witness): both amended branches at concrete requests. -/
theorem C5_amended_witness :
    (findListing store1 reqBothViolations.listing = some listingL
        ∧ 0 < reqBothViolations.numGuests ∧ 0 < reqBothViolations.totalPrice
        ∧ reqBothViolations.checkOutDate ≤ reqBothViolations.checkInDate
        ∧ runValidation store1 reqBothViolations
            = ValidationResult.rejected [ValidationError.invalidDateRange])
      ∧ (fieldErrors store1 reqZeroGuests ≠ []
          ∧ runValidation store1 reqZeroGuests
              = ValidationResult.rejected (fieldErrors store1 reqZeroGuests)) := by
  refine ⟨⟨rfl, by decide, by decide, by decide, ?_⟩, ⟨by decide, ?_⟩⟩
  · exact C5_amended.1 store1 reqBothViolations listingL rfl (by decide) (by decide) (by decide)
  · exact C5_amended.2 store1 reqZeroGuests (by decide)

/-- Request with invalid dates (day 7 → day 2) and 6 guests against a
capacity of 4. -/
def reqLateAndBig : BookingRequest := ⟨10, 7, 2, 6, 100, none⟩

/-- C8 (counterexample): a request whose guest count (6) exceeds the
capacity (4) but whose date range is also invalid is rejected with only
`InvalidDateRange` — it is not rejected with `GuestCapacityExceeded`,
because `validate` short-circuits on the date rule first. -/
theorem C8_counterexample :
    reqLateAndBig.numGuests > (listingL.maxGuests : Int)
      ∧ runValidation store1 reqLateAndBig
          = ValidationResult.rejected [ValidationError.invalidDateRange]
      ∧ ValidationError.guestCapacityExceeded ∉ [ValidationError.invalidDateRange] := by
  exact ⟨by decide, rfl, by decide⟩

/-- C8 (amended): a guest count below 1 is always rejected, by the
field-level check whose error is collected with the other field errors; a
guest count above capacity is rejected with `GuestCapacityExceeded`
provided the field-level checks pass and the date range is valid (with an
invalid date range the date error is reported instead); and no branch of
validation ever consults the stored bookings. -/
theorem C8_amended :
    (∀ (store : Store) (r : BookingRequest), r.numGuests ≤ 0 →
        ∃ es, runValidation store r = ValidationResult.rejected es
          ∧ ValidationError.guestCountNotPositive ∈ es)
      ∧ (∀ (store : Store) (r : BookingRequest) (l : Listing),
          findListing store r.listing = some l → 0 < r.numGuests → 0 < r.totalPrice →
            r.checkInDate < r.checkOutDate → (l.maxGuests : Int) < r.numGuests →
              runValidation store r
                = ValidationResult.rejected [ValidationError.guestCapacityExceeded])
      ∧ ∀ (ls : List Listing) (bs bs' : List Booking) (rs rs' : List Review)
          (r : BookingRequest),
          runValidation ⟨ls, bs, rs⟩ r = runValidation ⟨ls, bs', rs'⟩ r := by
  refine ⟨?_, ?_, ?_⟩
  · intro store r h
    have hmem : ValidationError.guestCountNotPositive ∈ fieldErrors store r := by
      simp [fieldErrors, h]
    exact ⟨fieldErrors store r,
      runValidation_of_fieldErrors_ne store r (List.ne_nil_of_mem hmem), hmem⟩
  · intro store r l hfind hg hp hd hcap
    have hfe := fieldErrors_eq_nil store r l hfind hg hp
    simp [runValidation, hfe, hfind, objectValidate, not_le.mpr hd, hcap]
  · exact fun ls bs bs' rs rs' r => runValidation_store_independent ls bs bs' rs rs' r

/-- Request with 5 guests against a capacity of 4, dates valid. -/
def reqFiveGuests : BookingRequest := ⟨10, 1, 2, 5, 100, none⟩

/-- C8 (witness): both rejection branches at concrete requests. -/
theorem C8_amended_witness :
    (reqZeroGuests.numGuests ≤ 0
        ∧ ∃ es, runValidation store1 reqZeroGuests = ValidationResult.rejected es
            ∧ ValidationError.guestCountNotPositive ∈ es)
      ∧ (findListing store1 reqFiveGuests.listing = some listingL
          ∧ 0 < reqFiveGuests.numGuests ∧ 0 < reqFiveGuests.totalPrice
          ∧ reqFiveGuests.checkInDate < reqFiveGuests.checkOutDate
          ∧ (listingL.maxGuests : Int) < reqFiveGuests.numGuests
          ∧ runValidation store1 reqFiveGuests
              = ValidationResult.rejected [ValidationError.guestCapacityExceeded]) := by
  refine ⟨⟨by decide, ?_⟩, rfl, by decide, by decide, by decide, by decide, ?_⟩
  · exact C8_amended.1 store1 reqZeroGuests (by decide)
  · exact C8_amended.2.1 store1 reqFiveGuests listingL rfl (by decide) (by decide)
      (by decide) (by decide)

/-- Aggregate of a nonempty list of ratings all at least 1: it is defined,
it equals the exact mean, and that mean is positive. -/
theorem avgAggregate_of_pos (xs : List Int) (hne : xs.length ≠ 0)
    (h1 : ∀ x ∈ xs, 1 ≤ x) :
    avgAggregate xs = some ((xs.map (fun i : Int => (i : Rat))).sum / (xs.length : Rat))
      ∧ 0 < (xs.map (fun i : Int => (i : Rat))).sum / (xs.length : Rat) := by
  have hone : ∀ y ∈ xs.map (fun i : Int => (i : Rat)), (1 : Rat) ≤ y := by
    intro y hy
    rw [List.mem_map] at hy
    obtain ⟨i, hi, rfl⟩ := hy
    exact_mod_cast h1 i hi
  have hk := List.card_nsmul_le_sum (xs.map (fun i : Int => (i : Rat))) 1 hone
  have hsum : (xs.length : Rat) ≤ (xs.map (fun i : Int => (i : Rat))).sum := by
    simpa [nsmul_eq_mul] using hk
  have hlpos : (0 : Rat) < (xs.length : Rat) := by
    exact_mod_cast Nat.pos_of_ne_zero hne
  exact ⟨by simp [avgAggregate, hne], div_pos (lt_of_lt_of_le hlpos hsum) hlpos⟩

/-- C6: with the model invariant that every stored rating is at least 1
(`MinValueValidator(1)`), the rating summary equals the arithmetic mean of
the active reviews' ratings, rounded to 2 decimal places, together with
their count; and it is exactly 0 — never an error or an undefined value —
when the listing has no active reviews. -/
theorem C6_rating_summary :
    ∀ (reviews : List Review) (lid : Nat), (∀ rv ∈ reviews, 1 ≤ rv.rating) →
      (review_count reviews lid = 0 → average_rating reviews lid = 0)
        ∧ (0 < review_count reviews lid →
            average_rating reviews lid
              = round2 (((activeReviews reviews lid).map (fun rv => (rv.rating : Rat))).sum
                  / (review_count reviews lid : Rat))) := by
  intro reviews lid h
  constructor
  · intro h0
    have hlen : ((activeReviews reviews lid).map (fun rv => rv.rating)).length = 0 := by
      simpa [review_count] using h0
    simp [average_rating, avgAggregate, hlen]
  · intro hpos
    have hlen0 : ((activeReviews reviews lid).map (fun rv => rv.rating)).length ≠ 0 := by
      simpa [review_count] using Nat.pos_iff_ne_zero.mp hpos
    have h1 : ∀ x ∈ (activeReviews reviews lid).map (fun rv => rv.rating), (1 : Int) ≤ x := by
      intro x hx
      rw [List.mem_map] at hx
      obtain ⟨rv, hrv, rfl⟩ := hx
      exact h rv (List.mem_of_mem_filter hrv)
    obtain ⟨heq, hposa⟩ :=
      avgAggregate_of_pos ((activeReviews reviews lid).map (fun rv => rv.rating)) hlen0 h1
    have hred : average_rating reviews lid
        = if ((((activeReviews reviews lid).map (fun rv => rv.rating)).map
              (fun i : Int => (i : Rat))).sum
            / (((activeReviews reviews lid).map (fun rv => rv.rating)).length : Rat)) ≠ 0
          then round2 ((((activeReviews reviews lid).map (fun rv => rv.rating)).map
              (fun i : Int => (i : Rat))).sum
            / (((activeReviews reviews lid).map (fun rv => rv.rating)).length : Rat))
          else 0 := by
      unfold average_rating
      rw [heq]
    rw [hred, if_pos (ne_of_gt hposa)]
    congr 1
    simp only [review_count, List.map_map, List.length_map, Function.comp_def]

/-- Three stored reviews: two for listing 10 (one inactive), one for
listing 11. -/
def reviewsW : List Review :=
  [⟨1, 10, 7, 5, "great", true⟩, ⟨2, 10, 8, 4, "ok", false⟩, ⟨3, 11, 9, 2, "meh", true⟩]

/-- C6 (witness): the summary of listing 10 over `reviewsW` (one active
review, rating 5). -/
theorem C6_witness :
    (∀ rv ∈ reviewsW, 1 ≤ rv.rating)
      ∧ 0 < review_count reviewsW 10
      ∧ average_rating reviewsW 10
          = round2 (((activeReviews reviewsW 10).map (fun rv => (rv.rating : Rat))).sum
              / (review_count reviewsW 10 : Rat)) := by
  refine ⟨by decide, by decide, ?_⟩
  exact (C6_rating_summary reviewsW 10 (by decide)).2 (by decide)

/-- C7: the rating summary is invariant under permutation of the stored
reviews — reorderings of review creation produce the same average and the
same count. -/
theorem C7_perm_invariant :
    ∀ (reviews1 reviews2 : List Review) (lid : Nat), reviews1.Perm reviews2 →
      average_rating reviews1 lid = average_rating reviews2 lid
        ∧ review_count reviews1 lid = review_count reviews2 lid := by
  intro r1 r2 lid h
  have hfil : (activeReviews r1 lid).Perm (activeReviews r2 lid) := h.filter _
  have hmap : ((activeReviews r1 lid).map (fun rv => rv.rating)).Perm
      ((activeReviews r2 lid).map (fun rv => rv.rating)) := hfil.map _
  have hsum := (hmap.map (fun i : Int => (i : Rat))).sum_eq
  have hlen := hmap.length_eq
  refine ⟨?_, hfil.length_eq⟩
  unfold average_rating avgAggregate
  rw [hsum, hlen]

/-- A rating-5 review of listing 10 by user 7. -/
def reviewA : Review := ⟨1, 10, 7, 5, "", true⟩

/-- A rating-3 review of listing 10 by user 8. -/
def reviewB : Review := ⟨2, 10, 8, 3, "", true⟩

/-- C7 (witness): swapping two concrete reviews leaves the summary of
listing 10 unchanged. -/
theorem C7_witness :
    ([reviewA, reviewB].Perm [reviewB, reviewA])
      ∧ average_rating [reviewA, reviewB] 10 = average_rating [reviewB, reviewA] 10
      ∧ review_count [reviewA, reviewB] 10 = review_count [reviewB, reviewA] 10 := by
  refine ⟨List.Perm.swap reviewB reviewA [], ?_⟩
  exact C7_perm_invariant [reviewA, reviewB] [reviewB, reviewA] 10
    (List.Perm.swap reviewB reviewA [])

/-- A rating-5 review of listing 10 created by user 7. -/
def reviewByUser7 : Review := ⟨1, 10, 7, 5, "great", true⟩

/-- C9 (counterexample): the reviewer themself can edit their own review —
an authenticated PATCH by user 7 on their review is permitted and mutates
the stored rating (and comment), so reviews are not immutable after
creation. -/
theorem C9_counterexample :
    updateReview true 7 Method.patch reviewByUser7 2 "meh"
        = some { reviewByUser7 with rating := 2, comment := "meh" }
      ∧ ({ reviewByUser7 with rating := 2, comment := "meh" } : Review).rating
          ≠ reviewByUser7.rating := by
  exact ⟨rfl, by decide⟩

/-- C9 (amended): an edit attempt by anyone other than the reviewer (or by
an unauthenticated user) is rejected; but the reviewer may edit their own
review — the update endpoint writes the new rating and comment, so
immutability after creation is not enforced. -/
theorem C9_amended :
    (∀ (auth : Bool) (user : Nat) (m : Method) (rv : Review) (nr : Int) (nc : String),
        rv.reviewer ≠ user → updateReview auth user m rv nr nc = none)
      ∧ ∀ (rv : Review) (nr : Int) (nc : String), 1 ≤ nr → nr ≤ 5 →
          updateReview true rv.reviewer Method.patch rv nr nc
            = some { rv with rating := nr, comment := nc } := by
  constructor
  · intro auth user m rv nr nc h
    unfold updateReview
    cases auth <;> cases m <;>
      simp [isOwnerOrReadOnly_review, Method.isSafe, h]
  · intro rv nr nc h1 h5
    unfold updateReview
    simp [isOwnerOrReadOnly_review, Method.isSafe, not_lt.mpr h1, not_lt.mpr h5]

/-- C9 (witness): user 8 cannot edit user 7's review; user 7 can. -/
theorem C9_amended_witness :
    (reviewByUser7.reviewer ≠ 8
        ∧ updateReview true 8 Method.put reviewByUser7 3 "x" = none)
      ∧ ((1 : Int) ≤ 4 ∧ (4 : Int) ≤ 5
          ∧ updateReview true reviewByUser7.reviewer Method.patch reviewByUser7 4 "y"
              = some { reviewByUser7 with rating := 4, comment := "y" }) := by
  refine ⟨⟨by decide, ?_⟩, by decide, by decide, ?_⟩
  · exact C9_amended.1 true 8 Method.put reviewByUser7 3 "x" (by decide)
  · exact C9_amended.2 reviewByUser7 4 "y" (by decide) (by decide)

/-- C10: the creation pipeline accepts a request whose acting user equals
the listing's host — no validation or permission check requires
guest ≠ host, so host 3 can book their own listing. -/
theorem C10_host_self_booking :
    createBooking store1 listingL.host 77 ⟨10, 20, 22, 2, 200, none⟩
        = Except.ok ⟨77, 10, 3, 20, 22, 2, 200, BookingStatus.pending⟩
      ∧ listingL.host = 3 := by
  exact ⟨rfl, rfl⟩

end AlxTravel
